import Mathlib

/-!
Shallow embedding of the TEDD1104 dataset pipeline (Dataset.py):
probabilistic minimap masking, per-frame dropout, frame splitting,
tensor conversion, channel normalization, keyboard-key-to-controller
mapping, filename label derivation, and the fault-tolerant retrieval
protocol of the dataset facade.

Conventions of the embedding:
- Images are height by width by channels arrays of byte values; the pixel
  function is total, only indices below the stated bounds are meaningful.
- Python float values are modelled as exact rationals.
- The process-wide random source is modelled by explicit draw parameters
  (one rational per coin flip, a stream of file names for the retry
  choice); a draw of the python random.random() primitive lies in [0, 1).
- Fallible python code (assert, IndexError, ValueError, numpy broadcast
  failures) is modelled with Except / Option; the unbounded retry loop is
  modelled with a fuel parameter, with none standing for non-termination
  within the given fuel.
-/

namespace Tedd

/-- A decoded image: height by width by channels array of byte values. -/
structure Image where
  height : Nat
  width : Nat
  channels : Nat
  pix : Nat → Nat → Nat → Nat

/-- Errors raised by the modelled python code. -/
inductive PyError where
  | indexError
  | valueError
  | broadcastError
  | assertionError
  deriving DecidableEq

/-- Whether an Except value is a success. -/
def isOkE {ε α : Type} : Except ε α → Bool
  | .ok _ => true
  | .error _ => false

/-- Number of columns selected by the python slice [a:b] of a row of
width w (numpy clamps both bounds to the width). -/
def sliceLen (w a b : Nat) : Nat := min b w - min a w

/-- Zero out rows 215 and beyond, columns [a, b), every channel: the numpy
assignment image[215:, a:b] = np.zeros((55, 80, 3)) once the broadcast
check has passed. -/
def maskBlock (img : Image) (a b : Nat) : Image :=
  { img with pix := fun r c k => if 215 ≤ r ∧ a ≤ c ∧ c < b then 0 else img.pix r c k }

/-- One step of the RemoveMinimap masking loop: the numpy broadcast check
for assigning a (55, 80, 3) zero block into image[215:, j*w : j*w+80],
then the write. -/
def maskStep (w j : Nat) (img : Image) : Except PyError Image :=
  if img.height - 215 = 55 ∧ sliceLen img.width (j * w) (j * w + 80) = 80 ∧ img.channels = 3 then
    .ok (maskBlock img (j * w) (j * w + 80))
  else
    .error .broadcastError

/-- RemoveMinimap.__call__ on the image: width = int(image.shape[1] / 5);
when the coin flip draw <= hide_map_prob fires, run the masking loop for
j = 0..4 (unrolled). -/
def removeMinimapImage (hideMapProb draw : ℚ) (img : Image) : Except PyError Image :=
  let w := img.width / 5
  if draw ≤ hideMapProb then
    maskStep w 0 img >>= maskStep w 1 >>= maskStep w 2 >>= maskStep w 3 >>= maskStep w 4
  else
    .ok img

/-- The sample record flowing into the transform chain: the raw decoded
image and the label, a list of float values. -/
structure RawSample where
  image : Image
  y : List ℚ

/-- RemoveMinimap.__call__: transforms the image, passes y through. -/
def removeMinimap (hideMapProb draw : ℚ) (s : RawSample) : Except PyError RawSample :=
  (removeMinimapImage hideMapProb draw s.image).map (fun im => { image := im, y := s.y })

/-- Zero out columns [a, b) of the image on every row and channel: the
numpy assignment image[:, a:b] = np.zeros((H, b - a, C)). -/
def zeroCols (img : Image) (a b : Nat) : Image :=
  { img with pix := fun r c k => if a ≤ c ∧ c < b then 0 else img.pix r c k }

/-- One step of the RemoveImage loop: frame j is zeroed when
draw j <= dropout_images_prob[j]; python list indexing raises IndexError
when j is out of range; the numpy assignment checks that the destination
column slice has width w (its row and channel counts match by
construction, so only the column count is checked). -/
def dropStep (dropoutImagesProb : List ℚ) (draws : Nat → ℚ) (w j : Nat) (img : Image) :
    Except PyError Image :=
  match dropoutImagesProb.get? j with
  | none => .error .indexError
  | some p =>
    if draws j ≤ p then
      if sliceLen img.width (j * w) ((j + 1) * w) = w then
        .ok (zeroCols img (j * w) ((j + 1) * w))
      else
        .error .broadcastError
    else
      .ok img

/-- RemoveImage.__call__ on the image: width = int(image.shape[1] / 5);
five independent coin flips, one per frame slot (unrolled loop). -/
def removeImageImage (dropoutImagesProb : List ℚ) (draws : Nat → ℚ) (img : Image) :
    Except PyError Image :=
  let w := img.width / 5
  dropStep dropoutImagesProb draws w 0 img >>= dropStep dropoutImagesProb draws w 1 >>=
    dropStep dropoutImagesProb draws w 2 >>= dropStep dropoutImagesProb draws w 3 >>=
    dropStep dropoutImagesProb draws w 4

/-- RemoveImage.__call__: transforms the image, passes y through. -/
def removeImage (dropoutImagesProb : List ℚ) (draws : Nat → ℚ) (s : RawSample) :
    Except PyError RawSample :=
  (removeImageImage dropoutImagesProb draws s.image).map (fun im => { image := im, y := s.y })

/-- The python slice image[:, a:b]. -/
def colSlice (img : Image) (a b : Nat) : Image :=
  { height := img.height
    width := sliceLen img.width a b
    channels := img.channels
    pix := fun r c k => img.pix r (min a img.width + c) k }

/-- The sample record after SplitImages: five frames and the label. -/
structure SplitSample where
  image1 : Image
  image2 : Image
  image3 : Image
  image4 : Image
  image5 : Image
  y : List ℚ

/-- SplitImages.__call__: width = int(image.shape[1] / 5); the five column
slices [0:w], [w:2w], [2w:3w], [3w:4w], [4w:5w]. -/
def splitImages (s : RawSample) : SplitSample :=
  let w := s.image.width / 5
  { image1 := colSlice s.image 0 w
    image2 := colSlice s.image w (w * 2)
    image3 := colSlice s.image (w * 2) (w * 3)
    image4 := colSlice s.image (w * 3) (w * 4)
    image5 := colSlice s.image (w * 4) (w * 5)
    y := s.y }

/-- Frame slot accessor for a split sample (slots 0..4). -/
def SplitSample.frame (s : SplitSample) : Nat → Image
  | 0 => s.image1
  | 1 => s.image2
  | 2 => s.image3
  | 3 => s.image4
  | _ => s.image5

/-- Reassemble five frames left to right: the inverse of the splitting
scheme, used to state the split-concat round trip. -/
def concat5 (f1 f2 f3 f4 f5 : Image) : Image :=
  { height := f1.height
    width := f1.width + f2.width + f3.width + f4.width + f5.width
    channels := f1.channels
    pix := fun r c k =>
      if c < f1.width then f1.pix r c k
      else if c < f1.width + f2.width then f2.pix r (c - f1.width) k
      else if c < f1.width + f2.width + f3.width then
        f3.pix r (c - f1.width - f2.width) k
      else if c < f1.width + f2.width + f3.width + f4.width then
        f4.pix r (c - f1.width - f2.width - f3.width) k
      else f5.pix r (c - f1.width - f2.width - f3.width - f4.width) k }

/-- Concatenate the five frames of a split sample left to right. -/
def reassemble (s : SplitSample) : Image :=
  concat5 s.image1 s.image2 s.image3 s.image4 s.image5

/-- A channel-first float tensor of shape dim0 by dim1 by dim2. -/
structure Tensor3 where
  dim0 : Nat
  dim1 : Nat
  dim2 : Nat
  val : Nat → Nat → Nat → ℚ

/-- numpy transpose((2, 0, 1)) followed by torch.from_numpy: the byte image
becomes a channel-first tensor holding the same values. -/
def toTensorImage (img : Image) : Tensor3 :=
  { dim0 := img.channels
    dim1 := img.height
    dim2 := img.width
    val := fun k r c => (img.pix r c k : ℚ) }

/-- torch.tensor on a list of float values: value preserving. -/
def torchTensor (y : List ℚ) : List ℚ := y

/-- The sample record after ToTensor: five tensors and the label tensor. -/
structure TensorSample where
  image1 : Tensor3
  image2 : Tensor3
  image3 : Tensor3
  image4 : Tensor3
  image5 : Tensor3
  y : List ℚ

/-- ToTensor.__call__. -/
def toTensor (s : SplitSample) : TensorSample :=
  { image1 := toTensorImage s.image1
    image2 := toTensorImage s.image2
    image3 := toTensorImage s.image3
    image4 := toTensorImage s.image4
    image5 := toTensorImage s.image5
    y := torchTensor s.y }

/-- The per-channel mean of transforms.Normalize. -/
def normMean : Nat → ℚ := fun c => [(485 : ℚ) / 1000, 456 / 1000, 406 / 1000].getD c 0

/-- The per-channel standard deviation of transforms.Normalize. -/
def normStd : Nat → ℚ := fun c => [(229 : ℚ) / 1000, 224 / 1000, 225 / 1000].getD c 0

/-- transforms.Normalize applied to image / 255.0: one channel value. -/
def normChannel (c : Nat) (x : ℚ) : ℚ := (x / 255 - normMean c) / normStd c

/-- Normalize one frame tensor: every channel value rescaled. -/
def normalizeTensor (t : Tensor3) : Tensor3 :=
  { t with val := fun k r c => normChannel k (t.val k r c) }

/-- Normalize.__call__: all five frames, y passed through. -/
def normalize (s : TensorSample) : TensorSample :=
  { image1 := normalizeTensor s.image1
    image2 := normalizeTensor s.image2
    image3 := normalizeTensor s.image3
    image4 := normalizeTensor s.image4
    image5 := normalizeTensor s.image5
    y := s.y }

/-- The inverse affine map of one normalized channel (the denormalization
the spec describes in its testable properties). -/
def denormChannel (c : Nat) (y : ℚ) : ℚ := (y * normStd c + normMean c) * 255

/-- keys2controller: translate a keyboard input into a controller input. -/
def keys2controller (keys : Int) : List ℚ :=
  if keys = 1 then [-1, -1, -1]
  else if keys = 2 then [1, -1, -1]
  else if keys = 3 then [0, -1, 1]
  else if keys = 4 then [0, 1, -1]
  else if keys = 5 then [-1, -1, 1]
  else if keys = 6 then [-1, 1, -1]
  else if keys = 7 then [1, -1, 1]
  else if keys = 8 then [1, 1, -1]
  else [0, -1, -1]

/-- Python list (or string) indexing with negative-index support:
xs[i] raises IndexError exactly when i is outside [-len(xs), len(xs)). -/
def pyGet {α : Type} (xs : List α) (i : Int) : Option α :=
  let j : Int := if i < 0 then i + xs.length else i
  if 0 ≤ j ∧ j < (xs.length : Int) then xs.get? j.toNat else none

/-- Split a character list at every occurrence of the separator: python
str.split with a one-character separator. -/
def splitOnChar (sep : Char) : List Char → List (List Char)
  | [] => [[]]
  | c :: t =>
    let r := splitOnChar sep t
    if c = sep then [] :: r
    else
      match r with
      | [] => [[c]]
      | h :: t2 => (c :: h) :: t2

/-- os.path.basename: the part after the last path separator. -/
def basename (s : String) : List Char := ((splitOnChar ('/') s.data).getLast?).getD s.data

/-- The python slice s[:-5]: drop the last five characters. -/
def dropLast5 (cs : List Char) : List Char := cs.take (cs.length - 5)

/-- Python int() applied to a one-character string: a decimal digit, or a
ValueError. -/
def pyIntOfChar (c : Char) : Option Int :=
  if c.isDigit then some ((c.toNat : Int) - 48) else none

/-- Value of a digit string (most significant first); none when some
character is not a decimal digit. -/
def digitsVal (cs : List Char) : Option Nat :=
  cs.foldlM (fun acc c => if c.isDigit then some (acc * 10 + (c.toNat - 48)) else none) 0

/-- Modelled external primitive: python float() restricted to the plain
decimal literals that encode dataset labels (optional sign, an integer
part and an optional fractional part separated by a dot; no exponent,
specials or whitespace). -/
def parseFloatQ (cs : List Char) : Option ℚ :=
  let sgnBody : ℚ × List Char :=
    match cs with
    | '-' :: t => (-1, t)
    | '+' :: t => (1, t)
    | _ => (1, cs)
  match splitOnChar ('.') sgnBody.2 with
  | [ip] =>
    if ip.isEmpty then none
    else (digitsVal ip).map (fun n => sgnBody.1 * n)
  | [ip, fp] =>
    if ip.isEmpty && fp.isEmpty then none
    else
      match digitsVal ip, digitsVal fp with
      | some n, some m => some (sgnBody.1 * ((n : ℚ) + (m : ℚ) / (10 : ℚ) ^ fp.length))
      | _, _ => none
  | _ => none

/-- Label derivation from the decoded file's name (Dataset.py lines
254-264): joystick mode parses the last underscore-delimited token of the
extensionless basename as comma-separated floats; keyboard mode parses
the 6th-from-last character of the basename as a key code and maps it
through keys2controller. -/
def deriveLabel (keyboardDataset : Bool) (imgName : String) : Option (List ℚ) :=
  if !keyboardDataset then
    let token := ((splitOnChar ('_') (dropLast5 (basename imgName))).getLast?).getD []
    (splitOnChar (',') token).mapM parseFloatQ
  else
    match pyGet (basename imgName) (-6) with
    | none => none
    | some ch => (pyIntOfChar ch).map keys2controller

/-- The dataset facade state established by a successful construction. -/
structure Tedd1104Dataset where
  datasetDir : String
  hideMapProb : ℚ
  dropoutImagesProb : List ℚ
  keyboardDataset : Bool
  datasetFiles : List String

/-- Tedd1104Dataset.__init__: the three assert blocks, then the field
assignments; the glob result (directory listing primitive) is an external
parameter. -/
def datasetInit (datasetDir : String) (hideMapProb : ℚ) (dropoutImagesProb : List ℚ)
    (keyboardDataset : Bool) (globFiles : List String) : Except PyError Tedd1104Dataset :=
  if 0 ≤ hideMapProb ∧ hideMapProb ≤ 1 then
    if dropoutImagesProb.length = 5 then
      if ∀ p ∈ dropoutImagesProb, 0 ≤ p ∧ p ≤ 1 then
        .ok
          { datasetDir := datasetDir
            hideMapProb := hideMapProb
            dropoutImagesProb := dropoutImagesProb
            keyboardDataset := keyboardDataset
            datasetFiles := globFiles }
      else .error .assertionError
    else .error .assertionError
  else .error .assertionError

/-- Tedd1104Dataset.__len__. -/
def datasetLen (d : Tedd1104Dataset) : Nat := d.datasetFiles.length

/-- transforms.Compose of the five stages, as applied to one sample. -/
def datasetTransform (hideMapProb : ℚ) (dropoutImagesProb : List ℚ) (drawMini : ℚ)
    (drawDrop : Nat → ℚ) (s : RawSample) : Except PyError TensorSample := do
  let s1 ← removeMinimap hideMapProb drawMini s
  let s2 ← removeImage dropoutImagesProb drawDrop s1
  pure (normalize (toTensor (splitImages s2)))

/-- The corrupt-file retry loop of __getitem__: try to decode the current
file; on failure substitute the n-th value of the random-choice oracle
(modelling random.choice(self.dataset_files)) and retry.  The fuel
argument bounds how many loop iterations we model; none means the loop
has not terminated within the given fuel. -/
def retryDecode (decode : String → Option Image) (choices : Nat → String) :
    Nat → Nat → String → Option String
  | _, 0, _ => none
  | n, fuel + 1, name =>
    match decode name with
    | some _ => some name
    | none => retryDecode decode choices (n + 1) fuel (choices n)

/-- Outcome of one __getitem__ call: a tensor sample, a raised python
error, or a retry loop that did not terminate within the modelled fuel. -/
inductive GetResult where
  | ok (t : TensorSample)
  | error (e : PyError)
  | diverge

/-- Whether a retrieval outcome is a successfully returned sample. -/
def GetResult.isOk : GetResult → Bool
  | .ok _ => true
  | _ => false

/-- Tedd1104Dataset.__getitem__: resolve the index, run the decode-retry
loop, derive the label from the finally decoded file's name, and apply
the transform chain.  The decode parameter models skimage.io.imread
(none = the recoverable decode failure), choices models the
random.choice oracle, diverge reports that the retry loop exhausted its
fuel. -/
def getItem (d : Tedd1104Dataset) (decode : String → Option Image) (choices : Nat → String)
    (drawMini : ℚ) (drawDrop : Nat → ℚ) (fuel : Nat) (idx : Int) : GetResult :=
  match pyGet d.datasetFiles idx with
  | none => .error .indexError
  | some name0 =>
    match retryDecode decode choices 0 fuel name0 with
    | none => .diverge
    | some name =>
      match decode name with
      | none => .diverge
      | some img =>
        match deriveLabel d.keyboardDataset name with
        | none => .error .valueError
        | some y =>
          match datasetTransform d.hideMapProb d.dropoutImagesProb drawMini drawDrop
              { image := img, y := y } with
          | .ok t => .ok t
          | .error e => .error e

/-! Concrete demonstration objects used by witnesses and counterexamples. -/

/-- A 270 by 400 by 3 image whose pixels are all 1. -/
def demoImage : Image := ⟨270, 400, 3, fun _ _ _ => 1⟩

/-- A joystick-labelled file name. -/
def goodName : String := "img_0.5,-1.0,0.3.jpeg"

/-- A second joystick-labelled file name. -/
def secondName : String := "img2_1.0,2.0,3.0.jpeg"

/-- A keyboard-labelled file name whose 6th-from-last character is the key 4. -/
def keyName : String := "xxx4.jpeg"

/-- A decode primitive that succeeds exactly on goodName. -/
def demoDecode : String → Option Image := fun n => if n = goodName then some demoImage else none

/-- A one-file dataset facade over goodName. -/
def demoDS : Tedd1104Dataset := ⟨("d"), 0, [0, 0, 0, 0, 0], false, [goodName]⟩

/-- A two-file dataset facade. -/
def demoDS2 : Tedd1104Dataset := ⟨("d"), 0, [0, 0, 0, 0, 0], false, [secondName, goodName]⟩

/-! Dimension-preservation helper lemmas. -/

@[simp] lemma maskBlock_height (img : Image) (a b : Nat) : (maskBlock img a b).height = img.height := rfl

@[simp] lemma maskBlock_width (img : Image) (a b : Nat) : (maskBlock img a b).width = img.width := rfl

@[simp] lemma maskBlock_channels (img : Image) (a b : Nat) : (maskBlock img a b).channels = img.channels := rfl

@[simp] lemma zeroCols_height (img : Image) (a b : Nat) : (zeroCols img a b).height = img.height := rfl

@[simp] lemma zeroCols_width (img : Image) (a b : Nat) : (zeroCols img a b).width = img.width := rfl

@[simp] lemma zeroCols_channels (img : Image) (a b : Nat) : (zeroCols img a b).channels = img.channels := rfl

/-- A joystick raw sample over the demo image. -/
def demoRaw : RawSample := ⟨demoImage, [1]⟩

/-- C5: FrameSplit is a pure reshape: each of the five frames is exactly the
corresponding width-floor(W/5) column slice of the input with no pixel
modified, concatenating the frames left to right reproduces the first
5*floor(W/5) columns of the input, and the W mod 5 remainder columns fall
outside every frame (each frame has width exactly floor(W/5)). -/
theorem claim_C5_frameSplit (s : RawSample) (j r c k : Nat) :
    ((reassemble (splitImages s)).width = 5 * (s.image.width / 5) ∧
      (reassemble (splitImages s)).height = s.image.height ∧
      (reassemble (splitImages s)).channels = s.image.channels) ∧
    (c < 5 * (s.image.width / 5) →
      (reassemble (splitImages s)).pix r c k = s.image.pix r c k) ∧
    (j < 5 →
      ((splitImages s).frame j).width = s.image.width / 5 ∧
      ((splitImages s).frame j).height = s.image.height ∧
      ((splitImages s).frame j).channels = s.image.channels) ∧
    (j < 5 → c < s.image.width / 5 →
      ((splitImages s).frame j).pix r c k = s.image.pix r (j * (s.image.width / 5) + c) k) := by
  refine ⟨⟨?_, rfl, rfl⟩, ?_, ?_, ?_⟩
  · simp only [reassemble, concat5, splitImages, colSlice, sliceLen]
    omega
  · intro hc
    simp only [reassemble, concat5, splitImages, colSlice, sliceLen] at hc ⊢
    split_ifs <;> rw [Nat.min_eq_left (by omega)] <;> congr 1 <;> omega
  · intro hj
    interval_cases j <;> refine ⟨?_, rfl, rfl⟩ <;>
      simp only [SplitSample.frame, splitImages, colSlice, sliceLen] <;> omega
  · intro hj hc
    interval_cases j <;> simp only [SplitSample.frame, splitImages, colSlice] <;>
      rw [Nat.min_eq_left (by omega)] <;> congr 1 <;> omega

/-- C5 witness: concrete round trip and slice facts on the demo sample. -/
theorem claim_C5_frameSplit_witness :
    (reassemble (splitImages demoRaw)).pix 0 399 0 = demoRaw.image.pix 0 399 0 ∧
    ((splitImages demoRaw).frame 3).pix 7 1 2 =
      demoRaw.image.pix 7 (3 * (demoRaw.image.width / 5) + 1) 2 ∧
    ((splitImages demoRaw).frame 4).width = demoRaw.image.width / 5 :=
  ⟨(claim_C5_frameSplit demoRaw 0 0 399 0).2.1 (by decide),
   (claim_C5_frameSplit demoRaw 3 7 1 2).2.2.2 (by decide) (by decide),
   ((claim_C5_frameSplit demoRaw 4 0 0 0).2.2.1 (by decide)).1⟩

@[simp] lemma ok_bind {ε α β : Type} (a : α) (f : α → Except ε β) :
    (Except.ok a >>= f) = f a := rfl

@[simp] lemma error_bind {ε α β : Type} (e : ε) (f : α → Except ε β) :
    ((Except.error e : Except ε α) >>= f) = .error e := rfl

/-- When the minimap masking loop triggers on a shape-compatible image
(height 270, three channels, widths such that every 80-column block fits),
all five masking steps succeed and the five regions are zeroed. -/
lemma maskChain_ok (img : Image) (h270 : img.height = 270)
    (hw : 4 * (img.width / 5) + 80 ≤ img.width) (hc3 : img.channels = 3) :
    ∃ out,
      (maskStep (img.width / 5) 0 img >>= maskStep (img.width / 5) 1 >>=
        maskStep (img.width / 5) 2 >>= maskStep (img.width / 5) 3 >>=
        maskStep (img.width / 5) 4) = .ok out ∧
      (out.height = img.height ∧ out.width = img.width ∧ out.channels = img.channels) ∧
      (∀ j r c k, j < 5 → 215 ≤ r → j * (img.width / 5) ≤ c →
        c < j * (img.width / 5) + 80 → out.pix r c k = 0) := by
  set w := img.width / 5 with hwdef
  have h55 : img.height - 215 = 55 := by omega
  have hs0 : sliceLen img.width (0 * w) (0 * w + 80) = 80 := by
    simp only [sliceLen]
    omega
  have hs1 : sliceLen img.width (1 * w) (1 * w + 80) = 80 := by
    simp only [sliceLen]
    omega
  have hs2 : sliceLen img.width (2 * w) (2 * w + 80) = 80 := by
    simp only [sliceLen]
    omega
  have hs3 : sliceLen img.width (3 * w) (3 * w + 80) = 80 := by
    simp only [sliceLen]
    omega
  have hs4 : sliceLen img.width (4 * w) (4 * w + 80) = 80 := by
    simp only [sliceLen]
    omega
  refine ⟨maskBlock (maskBlock (maskBlock (maskBlock (maskBlock img (0 * w) (0 * w + 80))
      (1 * w) (1 * w + 80)) (2 * w) (2 * w + 80)) (3 * w) (3 * w + 80)) (4 * w) (4 * w + 80),
    ?_, ⟨rfl, rfl, rfl⟩, ?_⟩
  · unfold maskStep
    rw [if_pos ⟨h55, hs0, hc3⟩]
    simp only [ok_bind, maskBlock_height, maskBlock_width, maskBlock_channels]
    rw [if_pos ⟨h55, hs1, hc3⟩]
    simp only [ok_bind, maskBlock_height, maskBlock_width, maskBlock_channels]
    rw [if_pos ⟨h55, hs2, hc3⟩]
    simp only [ok_bind, maskBlock_height, maskBlock_width, maskBlock_channels]
    rw [if_pos ⟨h55, hs3, hc3⟩]
    simp only [ok_bind, maskBlock_height, maskBlock_width, maskBlock_channels]
    rw [if_pos ⟨h55, hs4, hc3⟩]
  · intro j r c k hj h215 hcl hcr
    interval_cases j <;> simp only [maskBlock] <;> split_ifs <;> omega

/-- When the minimap masking loop triggers on a shape-incompatible image,
some masking step fails its numpy broadcast check and the loop raises. -/
lemma maskChain_error (img : Image)
    (h : ¬ (img.height = 270 ∧ 4 * (img.width / 5) + 80 ≤ img.width ∧ img.channels = 3)) :
    (maskStep (img.width / 5) 0 img >>= maskStep (img.width / 5) 1 >>=
      maskStep (img.width / 5) 2 >>= maskStep (img.width / 5) 3 >>=
      maskStep (img.width / 5) 4) = .error .broadcastError := by
  set w := img.width / 5 with hwdef
  by_cases h270 : img.height = 270
  · by_cases hc3 : img.channels = 3
    · have hwlt : ¬ (4 * w + 80 ≤ img.width) := fun hcon => h ⟨h270, hcon, hc3⟩
      have h55 : img.height - 215 = 55 := by omega
      by_cases b0 : 0 * w + 80 ≤ img.width
      · by_cases b1 : 1 * w + 80 ≤ img.width
        · by_cases b2 : 2 * w + 80 ≤ img.width
          · by_cases b3 : 3 * w + 80 ≤ img.width
            · unfold maskStep
              rw [if_pos ⟨h55, by simp only [sliceLen]; omega, hc3⟩]
              simp only [ok_bind, maskBlock_height, maskBlock_width, maskBlock_channels]
              rw [if_pos ⟨h55, by simp only [sliceLen]; omega, hc3⟩]
              simp only [ok_bind, maskBlock_height, maskBlock_width, maskBlock_channels]
              rw [if_pos ⟨h55, by simp only [sliceLen]; omega, hc3⟩]
              simp only [ok_bind, maskBlock_height, maskBlock_width, maskBlock_channels]
              rw [if_pos ⟨h55, by simp only [sliceLen]; omega, hc3⟩]
              simp only [ok_bind, maskBlock_height, maskBlock_width, maskBlock_channels]
              rw [if_neg (fun hcond => (by simp only [sliceLen] at hcond; omega :
                ¬ (sliceLen img.width (4 * w) (4 * w + 80) = 80)) hcond.2.1)]
            · unfold maskStep
              rw [if_pos ⟨h55, by simp only [sliceLen]; omega, hc3⟩]
              simp only [ok_bind, maskBlock_height, maskBlock_width, maskBlock_channels]
              rw [if_pos ⟨h55, by simp only [sliceLen]; omega, hc3⟩]
              simp only [ok_bind, maskBlock_height, maskBlock_width, maskBlock_channels]
              rw [if_pos ⟨h55, by simp only [sliceLen]; omega, hc3⟩]
              simp only [ok_bind, maskBlock_height, maskBlock_width, maskBlock_channels]
              rw [if_neg (fun hcond => (by simp only [sliceLen] at hcond; omega :
                ¬ (sliceLen img.width (3 * w) (3 * w + 80) = 80)) hcond.2.1)]
              simp only [error_bind]
          · unfold maskStep
            rw [if_pos ⟨h55, by simp only [sliceLen]; omega, hc3⟩]
            simp only [ok_bind, maskBlock_height, maskBlock_width, maskBlock_channels]
            rw [if_pos ⟨h55, by simp only [sliceLen]; omega, hc3⟩]
            simp only [ok_bind, maskBlock_height, maskBlock_width, maskBlock_channels]
            rw [if_neg (fun hcond => (by simp only [sliceLen] at hcond; omega :
              ¬ (sliceLen img.width (2 * w) (2 * w + 80) = 80)) hcond.2.1)]
            simp only [error_bind]
        · unfold maskStep
          rw [if_pos ⟨h55, by simp only [sliceLen]; omega, hc3⟩]
          simp only [ok_bind, maskBlock_height, maskBlock_width, maskBlock_channels]
          rw [if_neg (fun hcond => (by simp only [sliceLen] at hcond; omega :
            ¬ (sliceLen img.width (1 * w) (1 * w + 80) = 80)) hcond.2.1)]
          simp only [error_bind]
      · unfold maskStep
        rw [if_neg (fun hcond => (by simp only [sliceLen] at hcond; omega :
          ¬ (sliceLen img.width (0 * w) (0 * w + 80) = 80)) hcond.2.1)]
        simp only [error_bind]
    · unfold maskStep
      rw [if_neg (fun hcond => hc3 hcond.2.2)]
      simp only [error_bind]
  · unfold maskStep
    rw [if_neg (fun hcond => h270 (by omega))]
    simp only [error_bind]

/-- When no frame-dropout coin flip fires, RemoveImage leaves the sample
untouched (zero dropout probabilities, strictly positive draws). -/
lemma dropChain_zero (draws : Nat → ℚ) (img : Image) (h : ∀ j, ¬ (draws j ≤ 0)) :
    removeImageImage [0, 0, 0, 0, 0] draws img = .ok img := by
  unfold removeImageImage dropStep
  simp only [List.get?]
  rw [if_neg (h 0)]
  simp only [ok_bind]
  rw [if_neg (h 1)]
  simp only [ok_bind]
  rw [if_neg (h 2)]
  simp only [ok_bind]
  rw [if_neg (h 3)]
  simp only [ok_bind]
  rw [if_neg (h 4)]

/-- When every frame-dropout coin flip fires, RemoveImage zeroes all five
frame slots (all-one dropout probabilities, draws at most one). -/
lemma dropChain_one (draws : Nat → ℚ) (img : Image) (h : ∀ j, draws j ≤ 1) :
    ∃ out, removeImageImage [1, 1, 1, 1, 1] draws img = .ok out ∧
      (out.height = img.height ∧ out.width = img.width ∧ out.channels = img.channels) ∧
      ∀ r c k, c < 5 * (img.width / 5) → out.pix r c k = 0 := by
  set w := img.width / 5 with hwdef
  have h5 : 5 * w ≤ img.width := by omega
  have hs0 : sliceLen img.width (0 * w) ((0 + 1) * w) = w := by
    simp only [sliceLen]
    omega
  have hs1 : sliceLen img.width (1 * w) ((1 + 1) * w) = w := by
    simp only [sliceLen]
    omega
  have hs2 : sliceLen img.width (2 * w) ((2 + 1) * w) = w := by
    simp only [sliceLen]
    omega
  have hs3 : sliceLen img.width (3 * w) ((3 + 1) * w) = w := by
    simp only [sliceLen]
    omega
  have hs4 : sliceLen img.width (4 * w) ((4 + 1) * w) = w := by
    simp only [sliceLen]
    omega
  refine ⟨zeroCols (zeroCols (zeroCols (zeroCols (zeroCols img (0 * w) ((0 + 1) * w))
      (1 * w) ((1 + 1) * w)) (2 * w) ((2 + 1) * w)) (3 * w) ((3 + 1) * w)) (4 * w) ((4 + 1) * w),
    ?_, ⟨rfl, rfl, rfl⟩, ?_⟩
  · unfold removeImageImage dropStep
    simp only [List.get?]
    rw [if_pos (h 0), if_pos hs0]
    simp only [ok_bind, zeroCols_height, zeroCols_width, zeroCols_channels]
    rw [if_pos (h 1), if_pos hs1]
    simp only [ok_bind, zeroCols_height, zeroCols_width, zeroCols_channels]
    rw [if_pos (h 2), if_pos hs2]
    simp only [ok_bind, zeroCols_height, zeroCols_width, zeroCols_channels]
    rw [if_pos (h 3), if_pos hs3]
    simp only [ok_bind, zeroCols_height, zeroCols_width, zeroCols_channels]
    rw [if_pos (h 4), if_pos hs4]
  · intro r c k hc
    simp only [zeroCols]
    split_ifs <;> omega

/-- C6 counterexample: the source compares the draw with the probability
using less-or-equal, so with probability 0 a draw of exactly 0 (a legal
value of random.random(), which ranges over [0, 1)) still fires both
augmentations: MinimapRemoval with probability 0 modifies the demo image,
and FrameDropout with the all-zero vector zeroes a frame, refuting the
claim that a zero probability disables them for every random draw. -/
theorem claim_C6_degenerate_counterexample :
    ((0 : ℚ) ≤ 0 ∧ (0 : ℚ) < 1) ∧
    (∃ out, removeMinimapImage 0 0 demoImage = .ok out ∧
      out.pix 215 0 0 = 0 ∧ demoImage.pix 215 0 0 = 1) ∧
    (∃ out, removeImageImage [0, 0, 0, 0, 0] (fun _ => 0) demoImage = .ok out ∧
      out.pix 0 0 0 = 0 ∧ demoImage.pix 0 0 0 = 1) :=
  ⟨⟨le_refl 0, by norm_num⟩, ⟨_, rfl, rfl, rfl⟩, ⟨_, rfl, rfl, rfl⟩⟩

/-- C6 (amended): degenerate probabilities disable or force the random
augmentations except on a draw of exactly zero: MinimapRemoval with
probability 0 leaves the image untouched for every strictly positive draw
(only the draw 0 fires it), and with probability 1 every draw fires it and
zeroes the five minimap regions (on shape-compatible images); FrameDropout
with the all-zero vector leaves the image untouched for every strictly
positive draw, and with the all-one vector every draw zeroes all five
frame slots. -/
theorem claim_C6_degenerateProbs :
    (∀ (img : Image) (draw : ℚ), 0 < draw → removeMinimapImage 0 draw img = .ok img) ∧
    (∀ (img : Image) (draw : ℚ), draw ≤ 1 → img.height = 270 →
      4 * (img.width / 5) + 80 ≤ img.width → img.channels = 3 →
      ∃ out, removeMinimapImage 1 draw img = .ok out ∧
        ∀ j r c k, j < 5 → 215 ≤ r → j * (img.width / 5) ≤ c →
          c < j * (img.width / 5) + 80 → out.pix r c k = 0) ∧
    (∀ (draws : Nat → ℚ) (img : Image), (∀ j, 0 < draws j) →
      removeImageImage [0, 0, 0, 0, 0] draws img = .ok img) ∧
    (∀ (draws : Nat → ℚ) (img : Image), (∀ j, draws j ≤ 1) →
      ∃ out, removeImageImage [1, 1, 1, 1, 1] draws img = .ok out ∧
        ∀ r c k, c < 5 * (img.width / 5) → out.pix r c k = 0) := by
  refine ⟨?_, ?_, ?_, ?_⟩
  · intro img draw hdraw
    simp only [removeMinimapImage]
    rw [if_neg (not_le.mpr hdraw)]
  · intro img draw hdraw h270 hw hc3
    obtain ⟨out, heq, _, hzero⟩ := maskChain_ok img h270 hw hc3
    refine ⟨out, ?_, hzero⟩
    simp only [removeMinimapImage]
    rw [if_pos hdraw, heq]
  · intro draws img hpos
    exact dropChain_zero draws img (fun j => not_le.mpr (hpos j))
  · intro draws img hle
    obtain ⟨out, heq, _, hzero⟩ := dropChain_one draws img hle
    exact ⟨out, heq, hzero⟩

/-- C6 witness: concrete instances of the amended statements. -/
theorem claim_C6_degenerateProbs_witness :
    removeMinimapImage 0 (mkRat 1 2) demoImage = .ok demoImage ∧
    (∃ out, removeMinimapImage 1 0 demoImage = .ok out ∧ out.pix 215 0 0 = 0) ∧
    removeImageImage [0, 0, 0, 0, 0] (fun _ => mkRat 1 2) demoImage = .ok demoImage ∧
    (∃ out, removeImageImage [1, 1, 1, 1, 1] (fun _ => mkRat 1 2) demoImage = .ok out ∧
      out.pix 17 399 2 = 0) := by
  refine ⟨?_, ?_, ?_, ?_⟩
  · exact claim_C6_degenerateProbs.1 demoImage (mkRat 1 2) (by decide)
  · obtain ⟨out, heq, hzero⟩ := claim_C6_degenerateProbs.2.1 demoImage 0 (by decide)
      rfl (by decide) rfl
    exact ⟨out, heq, hzero 0 215 0 0 (by decide) (by decide) (by decide) (by decide)⟩
  · exact claim_C6_degenerateProbs.2.2.1 (fun _ => mkRat 1 2) demoImage
      (fun j => by show (0 : ℚ) < mkRat 1 2; decide)
  · obtain ⟨out, heq, hzero⟩ :=
      claim_C6_degenerateProbs.2.2.2 (fun _ => mkRat 1 2) demoImage
        (fun j => by show mkRat 1 2 ≤ (1 : ℚ); decide)
    exact ⟨out, heq, hzero 17 399 2 (by decide)⟩

/-- A 270 by 399 by 3 image: its per-frame width 399 / 5 = 79 is below 80,
yet every 80-column masking block still fits inside the full width. -/
def narrowImage : Image := ⟨270, 399, 3, fun _ _ _ => 1⟩

/-- C10 counterexample: on a 270 by 399 by 3 image the per-frame width
floor(399 / 5) = 79 is smaller than 80, yet the triggered masking
succeeds without raising, because even the last 80-column block
4*79 + 80 = 396 <= 399 fits in the image; this refutes the claim that the
triggered masking succeeds only when floor(W / 5) is at least 80. -/
theorem claim_C10_maskShape_counterexample :
    narrowImage.width / 5 < 80 ∧ narrowImage.height = 270 ∧ narrowImage.channels = 3 ∧
    ∃ out, removeMinimapImage 1 0 narrowImage = .ok out :=
  ⟨by decide, rfl, rfl, ⟨_, rfl⟩⟩

/-- C10 (amended): when the MinimapRemoval coin flip triggers, the masking
succeeds exactly when the image has height 270, three channels, and width W
with 4*floor(W/5) + 80 <= W (so that each fixed 55 by 80 by 3 zero block
fits); on any other shape it raises a broadcast (shape-mismatch) error
instead of clipping the region to the image bounds. -/
theorem claim_C10_maskShape (img : Image) (p draw : ℚ) (h : draw ≤ p) :
    (isOkE (removeMinimapImage p draw img) = true ↔
      (img.height = 270 ∧ 4 * (img.width / 5) + 80 ≤ img.width ∧ img.channels = 3)) ∧
    (¬ (img.height = 270 ∧ 4 * (img.width / 5) + 80 ≤ img.width ∧ img.channels = 3) →
      removeMinimapImage p draw img = .error .broadcastError) := by
  have hrw : removeMinimapImage p draw img =
      (maskStep (img.width / 5) 0 img >>= maskStep (img.width / 5) 1 >>=
        maskStep (img.width / 5) 2 >>= maskStep (img.width / 5) 3 >>=
        maskStep (img.width / 5) 4) := by
    simp only [removeMinimapImage]
    rw [if_pos h]
  constructor
  · constructor
    · intro hok
      by_contra hnc
      rw [hrw, maskChain_error img hnc] at hok
      simp [isOkE] at hok
    · intro hcond
      obtain ⟨out, heq, _, _⟩ := maskChain_ok img hcond.1 hcond.2.1 hcond.2.2
      rw [hrw, heq]
      rfl
  · intro hcond
    rw [hrw, maskChain_error img hcond]

/-- C10 witness: a shape-incompatible concrete image raises, a compatible
one succeeds. -/
theorem claim_C10_maskShape_witness :
    removeMinimapImage 1 0 (⟨100, 10, 3, fun _ _ _ => 0⟩ : Image) = .error .broadcastError ∧
    isOkE (removeMinimapImage 1 0 demoImage) = true := by
  constructor
  · exact (claim_C10_maskShape (⟨100, 10, 3, fun _ _ _ => 0⟩ : Image) 1 0 (by decide)).2
      (fun hcond => by
        have := hcond.1
        simp [Image.height] at this)
  · exact (claim_C10_maskShape demoImage 1 0 (by decide)).1.mpr ⟨rfl, by decide, rfl⟩

/-- C2: the key-to-control mapping is total: every key in 1..8 yields exactly the
row of the section 4.1 table, and every integer outside 1..8 (0, 9, negatives
included) yields the default vector (0, -1, -1) with no error raised. -/
theorem claim_C2_keys2controller :
    keys2controller 1 = [-1, -1, -1] ∧ keys2controller 2 = [1, -1, -1] ∧
    keys2controller 3 = [0, -1, 1] ∧ keys2controller 4 = [0, 1, -1] ∧
    keys2controller 5 = [-1, -1, 1] ∧ keys2controller 6 = [-1, 1, -1] ∧
    keys2controller 7 = [1, -1, 1] ∧ keys2controller 8 = [1, 1, -1] ∧
    ∀ k : Int, (k < 1 ∨ 8 < k) → keys2controller k = [0, -1, -1] := by
  refine ⟨rfl, rfl, rfl, rfl, rfl, rfl, rfl, rfl, ?_⟩
  intro k hk
  have h1 : k ≠ 1 := by omega
  have h2 : k ≠ 2 := by omega
  have h3 : k ≠ 3 := by omega
  have h4 : k ≠ 4 := by omega
  have h5 : k ≠ 5 := by omega
  have h6 : k ≠ 6 := by omega
  have h7 : k ≠ 7 := by omega
  have h8 : k ≠ 8 := by omega
  simp only [keys2controller, if_neg h1, if_neg h2, if_neg h3, if_neg h4, if_neg h5,
    if_neg h6, if_neg h7, if_neg h8]

/-- C2 witness: concrete out-of-range keys 0, 9 and -1 all yield the default. -/
theorem claim_C2_keys2controller_witness :
    keys2controller 0 = [0, -1, -1] ∧ keys2controller 9 = [0, -1, -1] ∧
    keys2controller (-1) = [0, -1, -1] :=
  ⟨claim_C2_keys2controller.2.2.2.2.2.2.2.2 0 (Or.inl (by norm_num)),
   claim_C2_keys2controller.2.2.2.2.2.2.2.2 9 (Or.inr (by norm_num)),
   claim_C2_keys2controller.2.2.2.2.2.2.2.2 (-1) (Or.inl (by norm_num))⟩

/-- C4 counterexample: the index -1 lies outside [0, size()) yet file-path
resolution does not fail: python negative indexing resolves it to the last
file, and the whole retrieval succeeds, contradicting the claim that every
index outside [0, size()) raises an indexing error. -/
theorem claim_C4_indexError_counterexample :
    ¬ (0 ≤ (-1 : Int)) ∧
    pyGet demoDS2.datasetFiles (-1) = some goodName ∧
    (getItem demoDS2 demoDecode (fun _ => goodName) (mkRat 1 2) (fun _ => mkRat 1 2)
      1 (-1)).isOk = true :=
  ⟨by norm_num, by decide, by with_unfolding_all decide⟩

/-- C4 (amended): index resolution follows python list indexing: it fails
exactly when idx is outside [-size(), size()); every idx in [0, size())
resolves to the idx-th file, and idx in [-size(), -1] resolves from the end
instead of failing. -/
theorem claim_C4_indexError (xs : List String) (i : Int) :
    (pyGet xs i ≠ none ↔ (-(xs.length : Int) ≤ i ∧ i < (xs.length : Int))) ∧
    (∀ n : Nat, n < xs.length → pyGet xs (n : Int) = xs.get? n) ∧
    (i < 0 → -(xs.length : Int) ≤ i → pyGet xs i = xs.get? (i + xs.length).toNat) := by
  refine ⟨?_, ?_, ?_⟩
  · unfold pyGet
    by_cases h1 : i < 0
    · rw [if_pos h1]
      by_cases h2 : 0 ≤ i + (xs.length : Int) ∧ i + (xs.length : Int) < (xs.length : Int)
      · rw [if_pos h2]
        rw [Ne, List.get?_eq_none]
        constructor
        · intro hx
          omega
        · intro hx
          omega
      · rw [if_neg h2]
        constructor
        · intro hx
          exact absurd rfl hx
        · intro hx
          exfalso
          omega
    · rw [if_neg h1]
      by_cases h2 : 0 ≤ i ∧ i < (xs.length : Int)
      · rw [if_pos h2]
        rw [Ne, List.get?_eq_none]
        constructor
        · intro hx
          omega
        · intro hx
          omega
      · rw [if_neg h2]
        constructor
        · intro hx
          exact absurd rfl hx
        · intro hx
          exfalso
          omega
  · intro n hn
    unfold pyGet
    have hneg : ¬ ((n : Int) < 0) := by omega
    rw [if_neg hneg, if_pos (by constructor <;> omega)]
    simp
  · intro hneg hge
    unfold pyGet
    rw [if_pos hneg, if_pos (by constructor <;> omega)]

/-- C4 witness: concrete in-range and negative indices resolve. -/
theorem claim_C4_indexError_witness :
    pyGet [goodName, secondName] ((1 : Nat) : Int) = [goodName, secondName].get? 1 ∧
    pyGet [goodName, secondName] (-2) = [goodName, secondName].get? ((-2 : Int) + 2).toNat :=
  ⟨(claim_C4_indexError [goodName, secondName] 0).2.1 1 (by norm_num),
   (claim_C4_indexError [goodName, secondName] (-2)).2.2 (by norm_num) (by norm_num)⟩

/-- C7: dataset construction succeeds exactly when the configuration is valid
(hide_map_prob in [0,1], dropout probabilities exactly 5 entries each in
[0,1]); an invalid configuration is rejected before any state is
established, and a successful construction establishes exactly the given
configuration. -/
theorem claim_C7_construction (dir : String) (p : ℚ) (probs : List ℚ) (kb : Bool)
    (files : List String) :
    (isOkE (datasetInit dir p probs kb files) = true ↔
      (0 ≤ p ∧ p ≤ 1 ∧ probs.length = 5 ∧ ∀ q ∈ probs, 0 ≤ q ∧ q ≤ 1)) ∧
    (∀ d, datasetInit dir p probs kb files = .ok d →
      d.datasetDir = dir ∧ d.hideMapProb = p ∧ d.dropoutImagesProb = probs ∧
        d.keyboardDataset = kb ∧ d.datasetFiles = files) := by
  constructor
  · unfold datasetInit
    split_ifs with h1 h2 h3
    · exact iff_of_true (by simp [isOkE]) ⟨h1.1, h1.2, h2, h3⟩
    · exact iff_of_false (by simp [isOkE])
        (fun h => h3 h.2.2.2)
    · exact iff_of_false (by simp [isOkE])
        (fun h => h2 h.2.2.1)
    · exact iff_of_false (by simp [isOkE])
        (fun h => h1 ⟨h.1, h.2.1⟩)
  · intro d hd
    unfold datasetInit at hd
    split_ifs at hd
    rw [Except.ok.injEq] at hd
    subst hd
    exact ⟨rfl, rfl, rfl, rfl, rfl⟩

/-- C7 witness: a concrete valid configuration constructs, and the success
condition rejects a concrete invalid probability. -/
theorem claim_C7_construction_witness :
    isOkE (datasetInit ("d") 0 [0, 0, 0, 0, 1] false [goodName]) = true ∧
    ¬ (isOkE (datasetInit ("d") 2 [0, 0, 0, 0, 0] false []) = true) ∧
    (∃ d, datasetInit ("d") 0 [0, 0, 0, 0, 1] false [goodName] = .ok d ∧
      d.hideMapProb = 0 ∧ d.datasetFiles = [goodName]) := by
  have hd : datasetInit ("d") 0 [0, 0, 0, 0, 1] false [goodName] =
      .ok ⟨("d"), 0, [0, 0, 0, 0, 1], false, [goodName]⟩ := by with_unfolding_all rfl
  refine ⟨?_, ?_, ?_⟩
  · exact (claim_C7_construction ("d") 0 [0, 0, 0, 0, 1] false [goodName]).1.mpr
      (by refine ⟨le_refl 0, by norm_num, rfl, ?_⟩; intro q hq; fin_cases hq <;> norm_num)
  · intro hok
    have h := (claim_C7_construction ("d") 2 [0, 0, 0, 0, 0] false []).1.mp hok
    norm_num at h
  · exact ⟨_, hd,
      ((claim_C7_construction ("d") 0 [0, 0, 0, 0, 1] false [goodName]).2 _ hd).2.1,
      ((claim_C7_construction ("d") 0 [0, 0, 0, 0, 1] false [goodName]).2 _ hd).2.2.2.2⟩

/-- A small channel-first demo tensor. -/
def demoT : Tensor3 := ⟨3, 2, 2, fun _ _ _ => 7⟩

/-- A demo tensor sample. -/
def demoTS : TensorSample := ⟨demoT, demoT, demoT, demoT, demoT, [1]⟩

/-- C8: Normalize is deterministic and invertible up to rounding: every
channel value becomes (x/255 - mean_c)/std_c with the fixed constants,
identically on each of the five frames, and the inverse affine map
recovers the original value exactly in exact (rational) arithmetic, hence
within floating-point tolerance. -/
theorem claim_C8_normalizeRoundtrip (s : TensorSample) (x : ℚ) (c r col : Nat) (hc : c < 3) :
    ((normalize s).image1.val c r col = normChannel c (s.image1.val c r col) ∧
      (normalize s).image2.val c r col = normChannel c (s.image2.val c r col) ∧
      (normalize s).image3.val c r col = normChannel c (s.image3.val c r col) ∧
      (normalize s).image4.val c r col = normChannel c (s.image4.val c r col) ∧
      (normalize s).image5.val c r col = normChannel c (s.image5.val c r col)) ∧
    (normChannel c x = (x / 255 - normMean c) / normStd c) ∧
    (normMean 0 = 485 / 1000 ∧ normMean 1 = 456 / 1000 ∧ normMean 2 = 406 / 1000 ∧
      normStd 0 = 229 / 1000 ∧ normStd 1 = 224 / 1000 ∧ normStd 2 = 225 / 1000) ∧
    denormChannel c (normChannel c x) = x := by
  refine ⟨⟨rfl, rfl, rfl, rfl, rfl⟩, rfl, ⟨rfl, rfl, rfl, rfl, rfl, rfl⟩, ?_⟩
  interval_cases c <;>
    · simp only [denormChannel, normChannel, normMean, normStd, List.getD_cons_zero,
        List.getD_cons_succ]
      field_simp
      ring

/-- C8 witness: the round trip at a concrete channel and pixel value. -/
theorem claim_C8_normalizeRoundtrip_witness :
    denormChannel 1 (normChannel 1 17) = 17 :=
  (claim_C8_normalizeRoundtrip demoTS 17 1 0 0 (by norm_num)).2.2.2

/-- RemoveMinimap passes the label through unchanged on success. -/
lemma removeMinimap_ok_y (p d : ℚ) (s s1 : RawSample)
    (h : removeMinimap p d s = .ok s1) : s1.y = s.y := by
  unfold removeMinimap at h
  cases him : removeMinimapImage p d s.image with
  | ok im =>
    rw [him] at h
    simp only [Except.map] at h
    rw [Except.ok.injEq] at h
    rw [← h]
  | error e =>
    rw [him] at h
    simp only [Except.map] at h
    exact Except.noConfusion h

/-- RemoveImage passes the label through unchanged on success. -/
lemma removeImage_ok_y (probs : List ℚ) (dd : Nat → ℚ) (s s1 : RawSample)
    (h : removeImage probs dd s = .ok s1) : s1.y = s.y := by
  unfold removeImage at h
  cases him : removeImageImage probs dd s.image with
  | ok im =>
    rw [him] at h
    simp only [Except.map] at h
    rw [Except.ok.injEq] at h
    rw [← h]
  | error e =>
    rw [him] at h
    simp only [Except.map] at h
    exact Except.noConfusion h

/-- C9: the label survives the whole transform chain unchanged in value:
MinimapRemoval, FrameDropout and FrameSplit pass the y field through,
ToTensor converts it to a tensor with the same value, Normalize leaves it
untouched, and therefore a successful chain returns exactly the label it
was given. -/
theorem claim_C9_labelPreserved (p : ℚ) (probs : List ℚ) (dm : ℚ) (dd : Nat → ℚ)
    (s s1 : RawSample) (ss : SplitSample) (ts : TensorSample) (t : TensorSample) :
    (removeMinimap p dm s = .ok s1 → s1.y = s.y) ∧
    (removeImage probs dd s = .ok s1 → s1.y = s.y) ∧
    ((splitImages s).y = s.y) ∧
    ((toTensor ss).y = torchTensor ss.y ∧ torchTensor ss.y = ss.y) ∧
    ((normalize ts).y = ts.y) ∧
    (datasetTransform p probs dm dd s = .ok t → t.y = s.y) := by
  refine ⟨removeMinimap_ok_y p dm s s1, removeImage_ok_y probs dd s s1, rfl, ⟨rfl, rfl⟩,
    rfl, ?_⟩
  intro h
  unfold datasetTransform at h
  cases hm : removeMinimap p dm s with
  | error e =>
    rw [hm] at h
    simp only [error_bind] at h
    exact Except.noConfusion h
  | ok s1x =>
    rw [hm] at h
    simp only [ok_bind] at h
    cases hr : removeImage probs dd s1x with
    | error e =>
      rw [hr] at h
      simp only [error_bind] at h
      exact Except.noConfusion h
    | ok s2x =>
      rw [hr] at h
      simp only [ok_bind] at h
      have ht : normalize (toTensor (splitImages s2x)) = t := by
        rw [show (pure (normalize (toTensor (splitImages s2x))) : Except PyError TensorSample) =
          .ok (normalize (toTensor (splitImages s2x))) from rfl, Except.ok.injEq] at h
        exact h
      rw [← ht]
      show s2x.y = s.y
      rw [removeImage_ok_y probs dd s1x s2x hr, removeMinimap_ok_y p dm s s1x hm]

/-- C9 witness: a concrete successful chain returns the label it was given. -/
theorem claim_C9_labelPreserved_witness :
    ∃ t, datasetTransform 0 [0, 0, 0, 0, 0] (mkRat 1 2) (fun _ => mkRat 1 2) demoRaw = .ok t ∧
      t.y = demoRaw.y :=
  ⟨_, by with_unfolding_all rfl,
    (claim_C9_labelPreserved 0 [0, 0, 0, 0, 0] (mkRat 1 2) (fun _ => mkRat 1 2) demoRaw
      demoRaw (splitImages demoRaw) demoTS _).2.2.2.2.2 (by with_unfolding_all rfl)⟩

/-- C3: label derivation from the decoded file's name: in joystick mode the
file img_0.5,-1.0,0.3.jpeg yields the label (0.5, -1.0, 0.3), parsed as
the comma-separated floats of the last underscore token of the
extensionless basename; in keyboard mode any file whose 6th-from-last
basename character is the digit 4 yields (0.0, 1.0, -1.0) through the
key-to-control mapping. -/
theorem claim_C3_labelDerivation :
    (deriveLabel false goodName = some [1 / 2, -1, 3 / 10]) ∧
    (∀ name : String, pyGet (basename name) (-6) = some ('4') →
      deriveLabel true name = some [0, 1, -1]) := by
  constructor
  · with_unfolding_all decide
  · intro name h
    unfold deriveLabel
    rw [if_neg (by simp)]
    rw [h]
    decide

/-- C3 witness: a concrete keyboard-labelled file name with key digit 4. -/
theorem claim_C3_labelDerivation_witness :
    deriveLabel true keyName = some [0, 1, -1] :=
  claim_C3_labelDerivation.2 keyName (by decide)

/-- The retry loop only ever returns a name that decodes successfully. -/
lemma retryDecode_sound (decode : String → Option Image) (choices : Nat → String) :
    ∀ (fuel n : Nat) (name out : String),
      retryDecode decode choices n fuel name = some out → (decode out).isSome = true := by
  intro fuel
  induction fuel with
  | zero =>
    intro n name out h
    simp [retryDecode] at h
  | succ f ih =>
    intro n name out h
    unfold retryDecode at h
    cases hd : decode name with
    | some img =>
      rw [hd] at h
      have he : name = out := Option.some.inj h
      subst he
      rw [hd]
      rfl
    | none =>
      rw [hd] at h
      exact ih (n + 1) (choices n) out h

/-- On an all-corrupt file list the retry loop never terminates: it returns
none for every amount of fuel. -/
lemma retryDecode_corrupt (decode : String → Option Image) (choices : Nat → String)
    (files : List String) (hall : ∀ f ∈ files, decode f = none)
    (hch : ∀ m, choices m ∈ files) :
    ∀ (fuel n : Nat) (name : String), name ∈ files →
      retryDecode decode choices n fuel name = none := by
  intro fuel
  induction fuel with
  | zero =>
    intro n name hmem
    rfl
  | succ f ih =>
    intro n name hmem
    unfold retryDecode
    rw [hall name hmem]
    exact ih (n + 1) (choices n) (hch n)

/-- A successfully resolved index yields a file from the enumerated list. -/
lemma pyGet_mem {α : Type} (xs : List α) (i : Int) (a : α) (h : pyGet xs i = some a) :
    a ∈ xs := by
  simp only [pyGet] at h
  split_ifs at h
  all_goals exact List.get?_mem h

/-- C1: decode failures are never surfaced: the retry loop either returns a
name that decodes successfully or, when every enumerated file is corrupt
(and the random re-draws range over the enumerated list), never
terminates, so a get call on an all-corrupt dataset diverges for every
amount of fuel; and every successful get call returns a tensor sample
fully built from some successfully decoded file. -/
theorem claim_C1_retrieval (decode : String → Option Image) (choices : Nat → String)
    (files : List String) :
    (∀ (fuel n : Nat) (name out : String),
      retryDecode decode choices n fuel name = some out → (decode out).isSome = true) ∧
    ((∀ f ∈ files, decode f = none) → (∀ m, choices m ∈ files) →
      ∀ (fuel n : Nat) (name : String), name ∈ files →
        retryDecode decode choices n fuel name = none) ∧
    (∀ (d : Tedd1104Dataset) (dm : ℚ) (dd : Nat → ℚ) (fuel : Nat) (idx : Int)
      (name0 : String),
      (∀ f ∈ d.datasetFiles, decode f = none) → (∀ m, choices m ∈ d.datasetFiles) →
      pyGet d.datasetFiles idx = some name0 →
      getItem d decode choices dm dd fuel idx = .diverge) ∧
    (∀ (d : Tedd1104Dataset) (dm : ℚ) (dd : Nat → ℚ) (fuel : Nat) (idx : Int)
      (t : TensorSample),
      getItem d decode choices dm dd fuel idx = .ok t →
      ∃ name img y, decode name = some img ∧ deriveLabel d.keyboardDataset name = some y ∧
        datasetTransform d.hideMapProb d.dropoutImagesProb dm dd
          { image := img, y := y } = .ok t) := by
  refine ⟨retryDecode_sound decode choices, retryDecode_corrupt decode choices files, ?_, ?_⟩
  · intro d dm dd fuel idx name0 hall hch hres
    have hnone := retryDecode_corrupt decode choices d.datasetFiles hall hch fuel 0 name0
      (pyGet_mem d.datasetFiles idx name0 hres)
    simp only [getItem, hres, hnone]
  · intro d dm dd fuel idx t h
    simp only [getItem] at h
    cases hres : pyGet d.datasetFiles idx with
    | none =>
      rw [hres] at h
      exact GetResult.noConfusion h
    | some name0 =>
      simp only [hres] at h
      cases hrd : retryDecode decode choices 0 fuel name0 with
      | none =>
        simp only [hrd] at h
        exact GetResult.noConfusion h
      | some name =>
        simp only [hrd] at h
        cases hd : decode name with
        | none =>
          simp only [hd] at h
          exact GetResult.noConfusion h
        | some img =>
          simp only [hd] at h
          cases hl : deriveLabel d.keyboardDataset name with
          | none =>
            simp only [hl] at h
            exact GetResult.noConfusion h
          | some y =>
            simp only [hl] at h
            cases htr : datasetTransform d.hideMapProb d.dropoutImagesProb dm dd
                { image := img, y := y } with
            | error e =>
              simp only [htr] at h
              exact GetResult.noConfusion h
            | ok t2 =>
              simp only [htr] at h
              injection h with h2
              subst h2
              exact ⟨name, img, y, hd, hl, htr⟩

/-- C1 witness: a decoding file is returned as decodable; an all-corrupt
list makes the loop return none and the whole call diverge; a concrete
successful call is fully built from a successfully decoded file. -/
theorem claim_C1_retrieval_witness :
    (demoDecode goodName).isSome = true ∧
    retryDecode (fun _ => none) (fun _ => goodName) 0 7 goodName = none ∧
    getItem demoDS (fun _ => none) (fun _ => goodName) (mkRat 1 2) (fun _ => mkRat 1 2)
      7 0 = .diverge ∧
    (∃ t, getItem demoDS demoDecode (fun _ => goodName) (mkRat 1 2) (fun _ => mkRat 1 2)
        3 0 = .ok t ∧
      ∃ name img y, demoDecode name = some img ∧
        deriveLabel demoDS.keyboardDataset name = some y ∧
        datasetTransform demoDS.hideMapProb demoDS.dropoutImagesProb (mkRat 1 2)
          (fun _ => mkRat 1 2) { image := img, y := y } = .ok t) := by
  refine ⟨?_, ?_, ?_, ?_⟩
  · exact (claim_C1_retrieval demoDecode (fun _ => goodName) [goodName]).1 1 0 goodName
      goodName (by decide)
  · exact (claim_C1_retrieval (fun _ => none) (fun _ => goodName) [goodName]).2.1
      (fun f hf => rfl) (fun m => by simp) 7 0 goodName (by simp)
  · exact (claim_C1_retrieval (fun _ => none) (fun _ => goodName) [goodName]).2.2.1 demoDS
      (mkRat 1 2) (fun _ => mkRat 1 2) 7 0 goodName (fun f hf => rfl)
      (fun m => by simp [demoDS]) (by decide)
  · have hrun : ∃ t, getItem demoDS demoDecode (fun _ => goodName) (mkRat 1 2)
        (fun _ => mkRat 1 2) 3 0 = .ok t := ⟨_, by with_unfolding_all rfl⟩
    obtain ⟨t, ht⟩ := hrun
    exact ⟨t, ht, (claim_C1_retrieval demoDecode (fun _ => goodName) [goodName]).2.2.2 demoDS
      (mkRat 1 2) (fun _ => mkRat 1 2) 3 0 t ht⟩

end Tedd
